import Mathlib

/-!
Verification of the `mcp_playground` servers.

Shallow embedding of the two FastAPI servers:
* `src/server.py` — calculator MCP server: an append-only CSV calculation
  ledger (`save_calculation`, `get_calculation_history`), the `/mcp`
  JSON-RPC-style dispatcher (`calc_handle_mcp`) and the direct REST
  endpoints (`plus_endpoint`, …).
* `src/jedox_server.py` — Jedox gateway MCP server: helpers wrapping remote
  gateway calls (`list_databases`, …, `read_jedox_range`) and its `/mcp`
  dispatcher (`jedox_handle_mcp`).

Numbers are modelled as `ℚ`; Python's rendering of values inside f-strings
is modelled by explicit `String` functions.  Disk/network effects are
modelled by explicit parameters: `storageOk` (does the CSV write succeed),
a timestamp string `now`, and a `JedoxGateway` record holding the outcome
(parsed payload or raised-exception message) of each possible remote call.
-/

/-- One data row of `calculation_history.csv` (header
`id, operation, operand_a, operand_b, result, timestamp`), as parsed back by
`get_calculation_history` in `src/server.py`. -/
structure LedgerEntry where
  id : Nat
  operation : String
  operand_a : ℚ
  operand_b : ℚ
  result : ℚ
  timestamp : String
  deriving DecidableEq, Repr

/-- The next-id computation inside `save_calculation` (`src/server.py`
lines 29–37): `next_id = 1`, and if the CSV has data rows,
`next_id = int(rows[-1][0]) + 1` — the id of the *last* row plus one. -/
def nextId (ledger : List LedgerEntry) : Nat :=
  match ledger.getLast? with
  | some e => e.id + 1
  | none => 1

/-- Model of `save_calculation(operation, a, b, result)` from `src/server.py`.
The whole body runs inside `try/except Exception`, which only logs; a
failing write (`storageOk = false`, e.g. disk full) therefore leaves the
ledger unchanged and raises nothing to the caller.  On success one row with
id `nextId` and the current timestamp is appended. -/
def save_calculation (storageOk : Bool) (ledger : List LedgerEntry)
    (operation : String) (a b result : ℚ) (now : String) : List LedgerEntry :=
  if storageOk then
    ledger ++ [⟨nextId ledger, operation, a, b, result, now⟩]
  else
    ledger

/-- Python's `rows[-limit:]` for a non-negative `limit`.  Note the Python
quirk this inherits faithfully: `-0 == 0`, so for `limit = 0` the slice is
`rows[0:]`, i.e. the *whole* list, not the empty list. -/
def pySliceLast {α : Type} (limit : Nat) (rows : List α) : List α :=
  if limit = 0 then rows else rows.drop (rows.length - limit)

/-- Model of `get_calculation_history(limit)` from `src/server.py` lines 55–79:
takes `rows[-limit:]` and returns them in reversed (most-recent-first)
order.  Row parsing (`int`/`float` conversions) is the identity here since
ledger entries are already typed. -/
def get_calculation_history (limit : Nat) (ledger : List LedgerEntry) :
    List LedgerEntry :=
  (pySliceLast limit ledger).reverse

/-- One `{type, text}` content item of a `tools/call` result. -/
structure ContentItem where
  type : String
  text : String
  deriving DecidableEq, Repr

/-- The `result` half of a response envelope: `{tools: [...]}` for
`tools/list` (descriptors abbreviated to their names; dispatch never
consults the schemas), `{content: [...]}` for `tools/call`. -/
inductive McpResult where
  | toolList (names : List String)
  | content (items : List ContentItem)
  deriving DecidableEq, Repr

/-- A response envelope body: exactly one of `result` or `error`. -/
inductive McpBody where
  | ok (r : McpResult)
  | err (code : Int) (message : String)
  deriving DecidableEq, Repr

/-- A `JSONResponse`: HTTP status (200 when FastAPI's default is used)
plus the envelope body. -/
structure HttpResponse where
  status : Nat
  body : McpBody
  deriving DecidableEq, Repr

/-- The `params.arguments` fields the calculator server reads:
`arguments.get("a")`, `arguments.get("b")`, `arguments.get("limit")`. -/
structure CalcArgs where
  a : Option ℚ
  b : Option ℚ
  limit : Option Nat
  deriving DecidableEq, Repr

/-- Rendering of a number inside a Python f-string. -/
def numStr (q : ℚ) : String := toString q

/-- Python f-string rendering of a possibly-absent (`None`) string. -/
def optNameStr : Option String → String
  | some s => s
  | none => "None"

/-- The per-entry history line of the `history` tool
(`src/server.py` line 288):
`f"⟨id⟩. ⟨operation⟩: ⟨a⟩ and ⟨b⟩ = ⟨result⟩ (⟨timestamp⟩)"`. -/
def formatHistoryLine (e : LedgerEntry) : String :=
  toString e.id ++ ". " ++ e.operation ++ ": " ++ numStr e.operand_a ++ " and " ++
    numStr e.operand_b ++ " = " ++ numStr e.result ++ " (" ++ e.timestamp ++ ")"

/-- Names of the five tools in the calculator server's `tools` registry. -/
def calcToolNames : List String := ["plus", "sub", "mul", "div", "history"]

/-- The `POST /mcp` handler of `src/server.py` (`handle_mcp`, lines
170–333) on an already-parsed request.  Inputs: whether the CSV write
succeeds, the current timestamp, the ledger state, `method`,
`params.name` and the read arguments.  Output: the `JSONResponse`
(status + envelope) and the ledger after the request.  Mirrors the
source's order: `tools/list`, then for `tools/call` the a/b presence
check, then the tool-name chain `plus`, `sub`, `mul`, `div` (with its
zero-divisor check), `history`, unknown tool; unknown method last. -/
def calc_handle_mcp (storageOk : Bool) (now : String) (ledger : List LedgerEntry)
    (method : String) (toolName : Option String) (args : CalcArgs) :
    HttpResponse × List LedgerEntry :=
  if method = "tools/list" then
    (⟨200, .ok (.toolList calcToolNames)⟩, ledger)
  else if method = "tools/call" then
    match args.a, args.b with
    | some a, some b =>
      if toolName = some "plus" then
        let result := a + b
        (⟨200, .ok (.content [⟨"text",
            "Addition: " ++ numStr a ++ " + " ++ numStr b ++ " = " ++ numStr result⟩])⟩,
         save_calculation storageOk ledger "plus" a b result now)
      else if toolName = some "sub" then
        let result := a - b
        (⟨200, .ok (.content [⟨"text",
            "Subtraction: " ++ numStr a ++ " - " ++ numStr b ++ " = " ++ numStr result⟩])⟩,
         save_calculation storageOk ledger "sub" a b result now)
      else if toolName = some "mul" then
        let result := a * b
        (⟨200, .ok (.content [⟨"text",
            "Multiplication: " ++ numStr a ++ " * " ++ numStr b ++ " = " ++ numStr result⟩])⟩,
         save_calculation storageOk ledger "mul" a b result now)
      else if toolName = some "div" then
        if b = 0 then
          (⟨400, .err (-32603) "Division by zero is not allowed"⟩, ledger)
        else
          let result := a / b
          (⟨200, .ok (.content [⟨"text",
              "Division: " ++ numStr a ++ " / " ++ numStr b ++ " = " ++ numStr result⟩])⟩,
           save_calculation storageOk ledger "div" a b result now)
      else if toolName = some "history" then
        let limit := args.limit.getD 10
        let history := get_calculation_history limit ledger
        let historyText := String.intercalate "\n" (history.map formatHistoryLine)
        (⟨200, .ok (.content [⟨"text",
            if history.isEmpty then "No calculation history found"
            else "Calculation History (last " ++ toString limit ++ "):\n" ++ historyText⟩])⟩,
         ledger)
      else
        (⟨400, .err (-32601) ("Unknown tool: " ++ optNameStr toolName)⟩, ledger)
    | _, _ => (⟨400, .err (-32602) "Missing required parameters: a and b"⟩, ledger)
  else
    (⟨400, .err (-32601) ("Method not found: " ++ method)⟩, ledger)

/-- Body of a direct REST endpoint response: the success dict
`{operation, a, b, result}`, the plain `{error}` dict, or the division
endpoint's `{error, operation, a, b}` dict. -/
inductive RestBody where
  | ok (operation : String) (a b result : ℚ)
  | err (message : String)
  | divErr (message : String) (operation : String) (a b : ℚ)
  deriving DecidableEq, Repr

/-- A direct REST endpoint response: HTTP status plus body. -/
structure RestResponse where
  status : Nat
  body : RestBody
  deriving DecidableEq, Repr

/-- Model of `POST /plus` (`plus_endpoint`, `src/server.py` lines 349–368). -/
def plus_endpoint (storageOk : Bool) (now : String) (ledger : List LedgerEntry)
    (a b : Option ℚ) : RestResponse × List LedgerEntry :=
  match a, b with
  | some a, some b =>
    (⟨200, .ok "plus" a b (a + b)⟩, save_calculation storageOk ledger "plus" a b (a + b) now)
  | _, _ => (⟨400, .err "Missing required parameters: a and b"⟩, ledger)

/-- Model of `POST /sub` (`sub_endpoint`, `src/server.py` lines 370–389). -/
def sub_endpoint (storageOk : Bool) (now : String) (ledger : List LedgerEntry)
    (a b : Option ℚ) : RestResponse × List LedgerEntry :=
  match a, b with
  | some a, some b =>
    (⟨200, .ok "sub" a b (a - b)⟩, save_calculation storageOk ledger "sub" a b (a - b) now)
  | _, _ => (⟨400, .err "Missing required parameters: a and b"⟩, ledger)

/-- Model of `POST /mul` (`mul_endpoint`, `src/server.py` lines 391–410). -/
def mul_endpoint (storageOk : Bool) (now : String) (ledger : List LedgerEntry)
    (a b : Option ℚ) : RestResponse × List LedgerEntry :=
  match a, b with
  | some a, some b =>
    (⟨200, .ok "mul" a b (a * b)⟩, save_calculation storageOk ledger "mul" a b (a * b) now)
  | _, _ => (⟨400, .err "Missing required parameters: a and b"⟩, ledger)

/-- Model of `POST /div` (`div_endpoint`, `src/server.py` lines 412–442): parameter
check, then the zero-divisor check returning the 400 error dict, then the
quotient. -/
def div_endpoint (storageOk : Bool) (now : String) (ledger : List LedgerEntry)
    (a b : Option ℚ) : RestResponse × List LedgerEntry :=
  match a, b with
  | some a, some b =>
    if b = 0 then
      (⟨400, .divErr "Division by zero is not allowed" "div" a b⟩, ledger)
    else
      (⟨200, .ok "div" a b (a / b)⟩, save_calculation storageOk ledger "div" a b (a / b) now)
  | _, _ => (⟨400, .err "Missing required parameters: a and b"⟩, ledger)

/-- Outcome of one remote Jedox call as seen by a helper in
`src/jedox_server.py`: either the parsed payload of interest, or the
message of the exception raised by `requests` /
`response.raise_for_status()` (transport or authentication failure). -/
structure JedoxGateway where
  /-- Parsed `data.get("databases", [])` as `(name, id)` pairs, or the error. -/
  databases : Except String (List (String × String))
  /-- Parsed `data.get("cubes", [])` as `(name, id)` pairs, or the error. -/
  cubes : Except String (List (String × String))
  /-- Parsed `data.get("dimensions", [])` as rendered names, or the error. -/
  dimensions : Except String (List String)
  /-- Parsed `data.get("cells")` for a single-cell read, as
  `(coordinates, rendered value)` pairs, or the error. -/
  cells : Except String (List (List String × String))
  /-- Acknowledgement of `/cells/write`, or the error. -/
  writeAck : Except String Unit
  /-- Parsed `data.get("cells", [])` for a range read, or the error. -/
  rangeCells : Except String (List (List String × String))

/-- Python list repr used when a coordinate list appears in an f-string:
`['2024', 'Beijing']`. -/
def pyListStr (l : List String) : String :=
  "[" ++ String.intercalate ", " (l.map (fun s => "\x27" ++ s ++ "\x27")) ++ "]"

/-- Rendering in an f-string of `arguments.get("coordinates")`, which may be
absent (`None`). -/
def optCoordsStr : Option (List String) → String
  | some l => pyListStr l
  | none => "None"

/-- Model of `list_databases()` (`src/jedox_server.py` lines 65–81): on any
exception the error is logged and `[]` returned. -/
def list_databases (gw : JedoxGateway) : List (String × String) :=
  match gw.databases with
  | .ok dbs => dbs
  | .error _ => []

/-- Model of `list_cubes(database)` (lines 84–103): `[]` on failure. -/
def list_cubes (gw : JedoxGateway) : List (String × String) :=
  match gw.cubes with
  | .ok cs => cs
  | .error _ => []

/-- Model of `list_dimensions(database)` (lines 106–125): `[]` on failure. -/
def list_dimensions (gw : JedoxGateway) : List String :=
  match gw.dimensions with
  | .ok ds => ds
  | .error _ => []

/-- Result of `read_jedox_cell`: the cell value (rendered; `"None"` when
the cell list is empty/absent or the value is null), or the
`{"error": str(e)}` dict returned from the `except` branch. -/
inductive CellReadResult where
  | value (v : String)
  | errorDict (msg : String)
  deriving DecidableEq, Repr

/-- Model of `read_jedox_cell(database, cube, coordinates)` (lines 128–158). -/
def read_jedox_cell (gw : JedoxGateway) : CellReadResult :=
  match gw.cells with
  | .error msg => .errorDict msg
  | .ok cells =>
    match cells.head? with
    | some c => .value c.2
    | none => .value "None"

/-- Result of `write_jedox_cell`: the success dict with its message, or
the `{"status": "error", "error": str(e)}` dict. -/
inductive WriteCellResult where
  | success (message : String)
  | failure (msg : String)
  deriving DecidableEq, Repr

/-- Model of `write_jedox_cell(database, cube, coordinates, value)` (lines
161–194); `value` is the rendered `arguments.get("value")`. -/
def write_jedox_cell (gw : JedoxGateway) (coordinates : Option (List String))
    (value : Option String) : WriteCellResult :=
  match gw.writeAck with
  | .ok _ =>
    .success ("Successfully wrote " ++ optNameStr value ++ " to cell " ++
      optCoordsStr coordinates)
  | .error msg => .failure msg

/-- Model of `read_jedox_range(database, cube, coordinates_list)` (lines 197–223):
`[]` on failure, else the cell list as `(coordinates, rendered value)`. -/
def read_jedox_range (gw : JedoxGateway) : List (List String × String) :=
  match gw.rangeCells with
  | .ok cells => cells
  | .error _ => []

/-- Names of the six tools in the Jedox server's `tools` registry. -/
def jedoxToolNames : List String :=
  ["jedox_list_databases", "jedox_list_cubes", "jedox_list_dimensions",
   "jedox_read_cell", "jedox_write_cell", "jedox_read_range"]

/-- The `params.arguments` fields the Jedox server reads. -/
structure JedoxArgs where
  database : Option String
  cube : Option String
  coordinates : Option (List String)
  /-- Rendered `arguments.get("value")` for `jedox_write_cell`. -/
  value : Option String

/-- The `POST /mcp` handler of `src/jedox_server.py` (`handle_mcp`, lines
344–538) on an already-parsed request.  Every `JSONResponse` it builds
uses FastAPI's default status, so the HTTP status is always 200 — also for
the unknown-tool and unknown-method error envelopes. -/
def jedox_handle_mcp (gw : JedoxGateway) (method : String)
    (toolName : Option String) (args : JedoxArgs) : HttpResponse :=
  if method = "tools/list" then
    ⟨200, .ok (.toolList jedoxToolNames)⟩
  else if method = "tools/call" then
    if toolName = some "jedox_list_databases" then
      let databases := list_databases gw
      let text := "Available Jedox Databases:\n" ++
        String.join (databases.map (fun d => "- " ++ d.1 ++ " (ID: " ++ d.2 ++ ")\n"))
      ⟨200, .ok (.content [⟨"text", text⟩])⟩
    else if toolName = some "jedox_list_cubes" then
      let cubes := list_cubes gw
      let text := "Cubes in database \x27" ++ optNameStr args.database ++ "\x27:\n" ++
        String.join (cubes.map (fun c => "- " ++ c.1 ++ " (ID: " ++ c.2 ++ ")\n"))
      ⟨200, .ok (.content [⟨"text", text⟩])⟩
    else if toolName = some "jedox_list_dimensions" then
      let dims := list_dimensions gw
      let text := "Dimensions in database \x27" ++ optNameStr args.database ++ "\x27:\n" ++
        String.join (dims.map (fun d => "- " ++ d ++ "\n"))
      ⟨200, .ok (.content [⟨"text", text⟩])⟩
    else if toolName = some "jedox_read_cell" then
      let text :=
        match read_jedox_cell gw with
        | .errorDict msg => "Error: " ++ msg
        | .value v => "Cell value at " ++ optCoordsStr args.coordinates ++ ":\n" ++ v
      ⟨200, .ok (.content [⟨"text", text⟩])⟩
    else if toolName = some "jedox_write_cell" then
      let text :=
        match write_jedox_cell gw args.coordinates args.value with
        | .success m => "Success: " ++ m
        | .failure msg => "Error: " ++ msg
      ⟨200, .ok (.content [⟨"text", text⟩])⟩
    else if toolName = some "jedox_read_range" then
      let cells := read_jedox_range gw
      let text := "Read " ++ toString cells.length ++ " cells:\n" ++
        String.join (cells.map (fun c => "- " ++ pyListStr c.1 ++ ": " ++ c.2 ++ "\n"))
      ⟨200, .ok (.content [⟨"text", text⟩])⟩
    else
      ⟨200, .err (-32601) ("Tool \x27" ++ optNameStr toolName ++ "\x27 not found")⟩
  else
    ⟨200, .err (-32601) ("Method \x27" ++ method ++ "\x27 not found")⟩

/-- The largest id stored in the ledger (`0` when empty). -/
def maxId (ledger : List LedgerEntry) : Nat :=
  ledger.foldr (fun e m => max e.id m) 0

/-- The ids along the CSV row order are strictly increasing.  Every ledger
the code itself produces satisfies this, since rows are only written by
`save_calculation` (preservation is proved in `c3_append_monotone`). -/
def IdsIncreasing (ledger : List LedgerEntry) : Prop :=
  (ledger.map LedgerEntry.id).Chain' (· < ·)

/-- A concrete ledger entry, for evaluating the code on explicit input. -/
def sampleEntry : LedgerEntry := ⟨1, "plus", 2, 3, 5, "2024-01-01T00:00:00"⟩

/-- A concrete two-entry ledger, for evaluating the code on explicit
input. -/
def sampleLedger : List LedgerEntry :=
  [sampleEntry, ⟨2, "mul", 2, 3, 6, "2024-01-01T00:00:01"⟩]

/-- A gateway every one of whose remote calls fails with exception
message `msg` (transport or authentication failure). -/
def gwFail (msg : String) : JedoxGateway :=
  ⟨.error msg, .error msg, .error msg, .error msg, .error msg, .error msg⟩

theorem le_maxId {e : LedgerEntry} : ∀ {l : List LedgerEntry}, e ∈ l → e.id ≤ maxId l := by
  intro l
  induction l with
  | nil => intro h; cases h
  | cons a t ih =>
    intro h
    rcases List.mem_cons.mp h with rfl | h
    · exact le_max_left _ _
    · exact le_trans (ih h) (le_max_right _ _)

theorem nextId_eq (l : List LedgerEntry) (h : IdsIncreasing l) :
    nextId l = maxId l + 1 := by
  induction l with
  | nil => rfl
  | cons a t ih =>
    cases t with
    | nil =>
      show a.id + 1 = max a.id 0 + 1
      rw [Nat.max_zero]
    | cons b t2 =>
      have hab : a.id < b.id ∧ IdsIncreasing (b :: t2) := by
        simpa [IdsIncreasing, List.chain'_cons] using h
      have hb : b.id ≤ maxId (b :: t2) := le_maxId (List.mem_cons_self b t2)
      have ha : a.id ≤ maxId (b :: t2) := le_of_lt (lt_of_lt_of_le hab.1 hb)
      calc nextId (a :: b :: t2) = nextId (b :: t2) := rfl
        _ = maxId (b :: t2) + 1 := ih hab.2
        _ = maxId (a :: b :: t2) + 1 := by
            have hmax : maxId (a :: b :: t2) = max a.id (maxId (b :: t2)) := rfl
            rw [hmax, max_eq_right ha]

theorem idsIncreasing_append (l : List LedgerEntry) (e : LedgerEntry)
    (h : IdsIncreasing l) (he : ∀ x ∈ l, x.id < e.id) :
    IdsIncreasing (l ++ [e]) := by
  unfold IdsIncreasing at h ⊢
  rw [List.map_append, List.chain'_append]
  refine ⟨h, ?_, ?_⟩
  · exact List.chain'_singleton _
  · intro x hx y hy
    rw [List.getLast?_map] at hx
    rw [Option.mem_def, Option.map_eq_some'] at hx
    obtain ⟨w, hw, rfl⟩ := hx
    have hwmem : w ∈ l.getLast? := Option.mem_def.mpr hw
    obtain ⟨hne, hl⟩ := List.mem_getLast?_eq_getLast hwmem
    have hy2 : y = e.id := by
      have := hy
      simp at this
      exact this.symm
    subst hy2
    subst hl
    exact he _ (List.getLast_mem hne)

theorem get_calculation_history_nil (n : Nat) :
    get_calculation_history n [] = [] := by
  unfold get_calculation_history pySliceLast
  split <;> simp

theorem get_calculation_history_eq_take {n : Nat} (hn : n ≠ 0)
    (l : List LedgerEntry) :
    get_calculation_history n l = l.reverse.take n := by
  unfold get_calculation_history pySliceLast
  rw [if_neg hn]
  have h1 : l.drop (l.length - n) = l.rtake n := rfl
  rw [h1, List.rtake_eq_reverse_take_reverse, List.reverse_reverse]

/-- C1. For every numeric pair `(a, b)`, a `tools/call` of `plus`
returns `a + b`, `sub` returns `a - b`, `mul` returns `a * b`, and (when
`b` is non-zero) `div` returns the quotient `a / b`; the success
response's single text content is `"<Label>: <a> <symbol> <b> = <result>"`
(e.g. `"Addition: <a> + <b> = <result>"`), and the direct REST endpoints
`POST /plus`, `/sub`, `/mul`, `/div` return the same result in the body
`{operation, a, b, result}`. -/
theorem c1_arithmetic_results (storageOk : Bool) (now : String)
    (ledger : List LedgerEntry) (a b : ℚ) (lim : Option Nat) :
    calc_handle_mcp storageOk now ledger "tools/call" (some "plus") ⟨some a, some b, lim⟩ =
      (⟨200, .ok (.content [⟨"text",
          "Addition: " ++ numStr a ++ " + " ++ numStr b ++ " = " ++ numStr (a + b)⟩])⟩,
       save_calculation storageOk ledger "plus" a b (a + b) now) ∧
    calc_handle_mcp storageOk now ledger "tools/call" (some "sub") ⟨some a, some b, lim⟩ =
      (⟨200, .ok (.content [⟨"text",
          "Subtraction: " ++ numStr a ++ " - " ++ numStr b ++ " = " ++ numStr (a - b)⟩])⟩,
       save_calculation storageOk ledger "sub" a b (a - b) now) ∧
    calc_handle_mcp storageOk now ledger "tools/call" (some "mul") ⟨some a, some b, lim⟩ =
      (⟨200, .ok (.content [⟨"text",
          "Multiplication: " ++ numStr a ++ " * " ++ numStr b ++ " = " ++ numStr (a * b)⟩])⟩,
       save_calculation storageOk ledger "mul" a b (a * b) now) ∧
    (b ≠ 0 →
      calc_handle_mcp storageOk now ledger "tools/call" (some "div") ⟨some a, some b, lim⟩ =
        (⟨200, .ok (.content [⟨"text",
            "Division: " ++ numStr a ++ " / " ++ numStr b ++ " = " ++ numStr (a / b)⟩])⟩,
         save_calculation storageOk ledger "div" a b (a / b) now)) ∧
    plus_endpoint storageOk now ledger (some a) (some b) =
      (⟨200, .ok "plus" a b (a + b)⟩, save_calculation storageOk ledger "plus" a b (a + b) now) ∧
    sub_endpoint storageOk now ledger (some a) (some b) =
      (⟨200, .ok "sub" a b (a - b)⟩, save_calculation storageOk ledger "sub" a b (a - b) now) ∧
    mul_endpoint storageOk now ledger (some a) (some b) =
      (⟨200, .ok "mul" a b (a * b)⟩, save_calculation storageOk ledger "mul" a b (a * b) now) ∧
    (b ≠ 0 →
      div_endpoint storageOk now ledger (some a) (some b) =
        (⟨200, .ok "div" a b (a / b)⟩,
         save_calculation storageOk ledger "div" a b (a / b) now)) := by
  refine ⟨rfl, rfl, rfl, ?_, rfl, rfl, rfl, ?_⟩
  · intro hb
    have hstep :
        calc_handle_mcp storageOk now ledger "tools/call" (some "div") ⟨some a, some b, lim⟩ =
          if b = 0 then
            ((⟨400, .err (-32603) "Division by zero is not allowed"⟩ : HttpResponse), ledger)
          else
            (⟨200, .ok (.content [⟨"text",
                "Division: " ++ numStr a ++ " / " ++ numStr b ++ " = " ++ numStr (a / b)⟩])⟩,
             save_calculation storageOk ledger "div" a b (a / b) now) := rfl
    rw [hstep, if_neg hb]
  · intro hb
    have hstep :
        div_endpoint storageOk now ledger (some a) (some b) =
          if b = 0 then
            ((⟨400, .divErr "Division by zero is not allowed" "div" a b⟩ : RestResponse), ledger)
          else
            (⟨200, .ok "div" a b (a / b)⟩,
             save_calculation storageOk ledger "div" a b (a / b) now) := rfl
    rw [hstep, if_neg hb]

theorem c1_arithmetic_results_witness :
    ((3 : ℚ) ≠ 0) ∧
    calc_handle_mcp true "t" [] "tools/call" (some "div") ⟨some 10, some 3, none⟩ =
      (⟨200, .ok (.content [⟨"text",
          "Division: " ++ numStr 10 ++ " / " ++ numStr 3 ++ " = " ++ numStr (10 / 3)⟩])⟩,
       save_calculation true [] "div" 10 3 (10 / 3) "t") :=
  ⟨by norm_num, (c1_arithmetic_results true "t" [] 10 3 none).2.2.2.1 (by norm_num)⟩

/-- C4. For every numeric `a`, a `tools/call` of `div` with `b = 0`
yields an error envelope with code `-32603` and a message containing
`"Division by zero"` — never a computed result — and appends no
`LedgerEntry`; the same holds for `POST /div`, which returns a 400 error
body instead of a result. -/
theorem c4_div_by_zero (storageOk : Bool) (now : String) (ledger : List LedgerEntry)
    (a : ℚ) (lim : Option Nat) :
    calc_handle_mcp storageOk now ledger "tools/call" (some "div") ⟨some a, some 0, lim⟩ =
      (⟨400, .err (-32603) "Division by zero is not allowed"⟩, ledger) ∧
    div_endpoint storageOk now ledger (some a) (some 0) =
      (⟨400, .divErr "Division by zero is not allowed" "div" a 0⟩, ledger) ∧
    "Division by zero is not allowed" = "Division by zero" ++ " is not allowed" := by
  refine ⟨?_, ?_, rfl⟩
  · have hstep :
        calc_handle_mcp storageOk now ledger "tools/call" (some "div") ⟨some a, some 0, lim⟩ =
          if (0 : ℚ) = 0 then
            ((⟨400, .err (-32603) "Division by zero is not allowed"⟩ : HttpResponse), ledger)
          else
            (⟨200, .ok (.content [⟨"text",
                "Division: " ++ numStr a ++ " / " ++ numStr 0 ++ " = " ++ numStr (a / 0)⟩])⟩,
             save_calculation storageOk ledger "div" a 0 (a / 0) now) := rfl
    rw [hstep, if_pos rfl]
  · have hstep :
        div_endpoint storageOk now ledger (some a) (some 0) =
          if (0 : ℚ) = 0 then
            ((⟨400, .divErr "Division by zero is not allowed" "div" a 0⟩ : RestResponse), ledger)
          else
            (⟨200, .ok "div" a 0 (a / 0)⟩,
             save_calculation storageOk ledger "div" a 0 (a / 0) now) := rfl
    rw [hstep, if_pos rfl]

/-- C6. If persisting a ledger entry fails (the durable medium is
unavailable), the failure is caught inside `save_calculation`: the
arithmetic tool call still returns its success response carrying the
already-computed result, the error is only logged (the ledger is left
unchanged, nothing is surfaced to the caller), and the dispatcher does not
crash. -/
theorem c6_storage_failure_graceful (now : String) (ledger : List LedgerEntry)
    (a b : ℚ) (lim : Option Nat) :
    (calc_handle_mcp false now ledger "tools/call" (some "plus") ⟨some a, some b, lim⟩).1 =
      (calc_handle_mcp true now ledger "tools/call" (some "plus") ⟨some a, some b, lim⟩).1 ∧
    calc_handle_mcp false now ledger "tools/call" (some "plus") ⟨some a, some b, lim⟩ =
      (⟨200, .ok (.content [⟨"text",
          "Addition: " ++ numStr a ++ " + " ++ numStr b ++ " = " ++ numStr (a + b)⟩])⟩,
       ledger) ∧
    (calc_handle_mcp false now ledger "tools/call" (some "sub") ⟨some a, some b, lim⟩).1 =
      (calc_handle_mcp true now ledger "tools/call" (some "sub") ⟨some a, some b, lim⟩).1 ∧
    calc_handle_mcp false now ledger "tools/call" (some "sub") ⟨some a, some b, lim⟩ =
      (⟨200, .ok (.content [⟨"text",
          "Subtraction: " ++ numStr a ++ " - " ++ numStr b ++ " = " ++ numStr (a - b)⟩])⟩,
       ledger) ∧
    (calc_handle_mcp false now ledger "tools/call" (some "mul") ⟨some a, some b, lim⟩).1 =
      (calc_handle_mcp true now ledger "tools/call" (some "mul") ⟨some a, some b, lim⟩).1 ∧
    calc_handle_mcp false now ledger "tools/call" (some "mul") ⟨some a, some b, lim⟩ =
      (⟨200, .ok (.content [⟨"text",
          "Multiplication: " ++ numStr a ++ " * " ++ numStr b ++ " = " ++ numStr (a * b)⟩])⟩,
       ledger) ∧
    (b ≠ 0 →
      (calc_handle_mcp false now ledger "tools/call" (some "div") ⟨some a, some b, lim⟩).1 =
        (calc_handle_mcp true now ledger "tools/call" (some "div") ⟨some a, some b, lim⟩).1) ∧
    (b ≠ 0 →
      calc_handle_mcp false now ledger "tools/call" (some "div") ⟨some a, some b, lim⟩ =
        (⟨200, .ok (.content [⟨"text",
            "Division: " ++ numStr a ++ " / " ++ numStr b ++ " = " ++ numStr (a / b)⟩])⟩,
         ledger)) := by
  have hfalse :
      calc_handle_mcp false now ledger "tools/call" (some "div") ⟨some a, some b, lim⟩ =
        if b = 0 then
          ((⟨400, .err (-32603) "Division by zero is not allowed"⟩ : HttpResponse), ledger)
        else
          (⟨200, .ok (.content [⟨"text",
              "Division: " ++ numStr a ++ " / " ++ numStr b ++ " = " ++ numStr (a / b)⟩])⟩,
           ledger) := rfl
  have htrue :
      calc_handle_mcp true now ledger "tools/call" (some "div") ⟨some a, some b, lim⟩ =
        if b = 0 then
          ((⟨400, .err (-32603) "Division by zero is not allowed"⟩ : HttpResponse), ledger)
        else
          (⟨200, .ok (.content [⟨"text",
              "Division: " ++ numStr a ++ " / " ++ numStr b ++ " = " ++ numStr (a / b)⟩])⟩,
           save_calculation true ledger "div" a b (a / b) now) := rfl
  refine ⟨rfl, rfl, rfl, rfl, rfl, rfl, ?_, ?_⟩
  · intro hb
    rw [hfalse, htrue, if_neg hb, if_neg hb]
  · intro hb
    rw [hfalse, if_neg hb]

theorem c6_storage_failure_graceful_witness :
    ((3 : ℚ) ≠ 0) ∧
    calc_handle_mcp false "t" [] "tools/call" (some "plus") ⟨some 10, some 3, none⟩ =
      (⟨200, .ok (.content [⟨"text",
          "Addition: " ++ numStr 10 ++ " + " ++ numStr 3 ++ " = " ++ numStr (10 + 3)⟩])⟩,
       []) ∧
    calc_handle_mcp false "t" [] "tools/call" (some "div") ⟨some 10, some 3, none⟩ =
      (⟨200, .ok (.content [⟨"text",
          "Division: " ++ numStr 10 ++ " / " ++ numStr 3 ++ " = " ++ numStr (10 / 3)⟩])⟩,
       []) :=
  ⟨by norm_num, (c6_storage_failure_graceful "t" [] 10 3 none).2.1,
   (c6_storage_failure_graceful "t" [] 10 3 none).2.2.2.2.2.2.2 (by norm_num)⟩

/-- C3. For every ledger state the code can produce (its ids strictly
increase along the file, an invariant this theorem shows is preserved), an
append assigns the new entry the id `max(existing ids) + 1` — `1` when the
ledger is empty; every successful arithmetic tool call appends exactly one
`LedgerEntry` whose id is strictly greater than every previously stored
id, existing entries are never mutated or deleted, and ids are never
reused. -/
theorem c3_append_monotone (ledger : List LedgerEntry) (h : IdsIncreasing ledger)
    (now op : String) (a b r : ℚ) :
    nextId ledger = maxId ledger + 1 ∧
    (ledger = [] → nextId ledger = 1) ∧
    save_calculation true ledger op a b r now =
      ledger ++ [⟨nextId ledger, op, a, b, r, now⟩] ∧
    (∀ e ∈ ledger, e.id < nextId ledger) ∧
    IdsIncreasing (save_calculation true ledger op a b r now) ∧
    (calc_handle_mcp true now ledger "tools/call" (some "plus") ⟨some a, some b, none⟩).2 =
      ledger ++ [⟨nextId ledger, "plus", a, b, a + b, now⟩] ∧
    (calc_handle_mcp true now ledger "tools/call" (some "sub") ⟨some a, some b, none⟩).2 =
      ledger ++ [⟨nextId ledger, "sub", a, b, a - b, now⟩] ∧
    (calc_handle_mcp true now ledger "tools/call" (some "mul") ⟨some a, some b, none⟩).2 =
      ledger ++ [⟨nextId ledger, "mul", a, b, a * b, now⟩] ∧
    (b ≠ 0 →
      (calc_handle_mcp true now ledger "tools/call" (some "div") ⟨some a, some b, none⟩).2 =
        ledger ++ [⟨nextId ledger, "div", a, b, a / b, now⟩]) := by
  have hlt : ∀ e ∈ ledger, e.id < nextId ledger := by
    intro e he
    rw [nextId_eq ledger h]
    exact Nat.lt_succ_of_le (le_maxId he)
  have hdiv :
      calc_handle_mcp true now ledger "tools/call" (some "div") ⟨some a, some b, none⟩ =
        if b = 0 then
          ((⟨400, .err (-32603) "Division by zero is not allowed"⟩ : HttpResponse), ledger)
        else
          (⟨200, .ok (.content [⟨"text",
              "Division: " ++ numStr a ++ " / " ++ numStr b ++ " = " ++ numStr (a / b)⟩])⟩,
           save_calculation true ledger "div" a b (a / b) now) := rfl
  refine ⟨nextId_eq ledger h, ?_, rfl, hlt, ?_, rfl, rfl, rfl, ?_⟩
  · intro he; subst he; rfl
  · exact idsIncreasing_append ledger _ h hlt
  · intro hb
    rw [hdiv, if_neg hb]
    rfl

theorem c3_append_monotone_witness :
    IdsIncreasing sampleLedger ∧ ((3 : ℚ) ≠ 0) ∧
    nextId sampleLedger = maxId sampleLedger + 1 ∧
    save_calculation true sampleLedger "plus" 2 3 5 "t3" =
      sampleLedger ++ [⟨nextId sampleLedger, "plus", 2, 3, 5, "t3"⟩] ∧
    (calc_handle_mcp true "t3" sampleLedger "tools/call" (some "div")
        ⟨some 2, some 3, none⟩).2 =
      sampleLedger ++ [⟨nextId sampleLedger, "div", 2, 3, 2 / 3, "t3"⟩] := by
  have hInc : IdsIncreasing sampleLedger := by
    simp [IdsIncreasing, sampleLedger, sampleEntry, List.chain'_cons, List.chain'_singleton]
  have h3 : (3 : ℚ) ≠ 0 := by norm_num
  exact ⟨hInc, h3,
    (c3_append_monotone sampleLedger hInc "t3" "plus" 2 3 5).1,
    (c3_append_monotone sampleLedger hInc "t3" "plus" 2 3 5).2.2.1,
    (c3_append_monotone sampleLedger hInc "t3" "div" 2 3 5).2.2.2.2.2.2.2.2 h3⟩

/-- C2 (code evaluated at the failing input). The claim (and the
spec) say `recent(0)` returns the empty sequence; on a concrete two-entry
ledger `get_calculation_history 0` returns the whole ledger, most-recent
first, because Python's `rows[-0:]` is `rows[0:]`.  The code's own
comment ("Get last N rows") and the tool description agree with the
spec's intent, so this is a code bug. -/
theorem c2_recent_zero_returns_all :
    get_calculation_history 0 sampleLedger = sampleLedger.reverse ∧
    sampleLedger.reverse ≠ ([] : List LedgerEntry) := by
  constructor
  · rfl
  · decide

/-- C7 (code evaluated at the failing input). The claim says every
`tools/call` of the `history` tool defaults `arguments.limit` to 10 when
absent and returns the formatted listing (or the explicit no-history
text).  The code, however, runs the `a`/`b` presence check before the
tool-name dispatch, so a schema-conforming `history` call carrying no
`a`/`b` operands — the `history` schema declares only `limit`, and the
repo's own `test_history_mcp_tool` sends exactly `{"limit": 5}` expecting
a result — is answered by the `-32602` missing-parameters error instead.
The code contradicts its own tool schema and test: a code bug.  (C10
proves the gate in general; the handler, when reached, formats as the
claim describes.) -/
theorem c7_history_missing_operands :
    calc_handle_mcp true "t" sampleLedger "tools/call" (some "history") ⟨none, none, some 5⟩ =
      (⟨400, .err (-32602) "Missing required parameters: a and b"⟩, sampleLedger) ∧
    calc_handle_mcp true "t" [] "tools/call" (some "history") ⟨none, none, none⟩ =
      (⟨400, .err (-32602) "Missing required parameters: a and b"⟩, []) :=
  ⟨rfl, rfl⟩

/-- C5 (counterexample). A `tools/call` naming the unknown tool
`"bogus"` with arguments lacking `a` and `b` is answered by the `-32602`
missing-parameters error, not the `-32601` unknown-tool error the claim
requires for every unknown-name request. -/
theorem c5_counterexample :
    calc_handle_mcp true "t" [] "tools/call" (some "bogus") ⟨none, none, none⟩ =
      (⟨400, .err (-32602) "Missing required parameters: a and b"⟩, []) ∧
    ((-32602 : Int) ≠ -32601) :=
  ⟨rfl, by decide⟩

/-- C5 (amended). For every `tools/call` request whose `params.name`
does not match any registered tool *and whose arguments contain both `a`
and `b`* (otherwise the `-32602` validation error takes precedence, see
C10), the dispatcher returns an error envelope with code `-32601` whose
message names the unknown tool. -/
theorem c5_unknown_tool (storageOk : Bool) (now : String) (ledger : List LedgerEntry)
    (name : String) (a b : ℚ) (lim : Option Nat) (h : name ∉ calcToolNames) :
    calc_handle_mcp storageOk now ledger "tools/call" (some name) ⟨some a, some b, lim⟩ =
      (⟨400, .err (-32601) ("Unknown tool: " ++ name)⟩, ledger) := by
  simp only [calcToolNames, List.mem_cons, List.mem_singleton, not_or] at h
  obtain ⟨h1, h2, h3, h4, h5⟩ := h
  simp [calc_handle_mcp, optNameStr, h1, h2, h3, h4, h5]

theorem c5_unknown_tool_witness :
    ("bogus" ∉ calcToolNames) ∧
    calc_handle_mcp true "t" [] "tools/call" (some "bogus") ⟨some 1, some 2, none⟩ =
      (⟨400, .err (-32601) ("Unknown tool: " ++ "bogus")⟩, []) :=
  ⟨by decide, c5_unknown_tool true "t" [] "bogus" 1 2 none (by decide)⟩

/-- C10. In the calculator's `/mcp` dispatcher the presence check for
arguments `a` and `b` runs before the tool name is examined: every
`tools/call` request missing `a` or `b` — whatever `params.name` is,
including the `history` tool (which declares no `a`/`b` parameters) and
unregistered names — returns the `-32602` "Missing required parameters"
error with HTTP status 400, so the per-tool handlers are reached only
when both `a` and `b` are present. -/
theorem c10_validation_before_dispatch (storageOk : Bool) (now : String)
    (ledger : List LedgerEntry) (toolName : Option String) (args : CalcArgs)
    (h : args.a = none ∨ args.b = none) :
    calc_handle_mcp storageOk now ledger "tools/call" toolName args =
      (⟨400, .err (-32602) "Missing required parameters: a and b"⟩, ledger) := by
  obtain ⟨oa, ob, ol⟩ := args
  rcases h with h | h
  · have h2 : oa = none := h
    subst h2
    cases ob <;> rfl
  · have h2 : ob = none := h
    subst h2
    cases oa <;> rfl

theorem c10_validation_before_dispatch_witness :
    ((⟨none, none, some 5⟩ : CalcArgs).a = none ∨
      (⟨none, none, some 5⟩ : CalcArgs).b = none) ∧
    calc_handle_mcp true "t" [] "tools/call" (some "history") ⟨none, none, some 5⟩ =
      (⟨400, .err (-32602) "Missing required parameters: a and b"⟩, []) :=
  ⟨Or.inl rfl,
   c10_validation_before_dispatch true "t" [] (some "history") ⟨none, none, some 5⟩
     (Or.inl rfl)⟩

/-- C8 (counterexample). With a gateway whose calls fail with message
"connection refused", the `jedox_list_databases` tool renders an *empty
listing* — a successful envelope whose text is not of the form
`"Error: <message>"` — refuting the claim that every gateway failure is
rendered as `"Error: <message>"` for all six tools. -/
theorem c8_counterexample :
    jedox_handle_mcp (gwFail "connection refused") "tools/call"
        (some "jedox_list_databases") ⟨none, none, none, none⟩ =
      ⟨200, .ok (.content [⟨"text", "Available Jedox Databases:\n"⟩])⟩ ∧
    "Available Jedox Databases:\n" ≠ "Error: " ++ "connection refused" :=
  ⟨rfl, by decide⟩

/-- C8 (amended). For every gateway-backed tool call, any transport or
authentication failure from the remote gateway is caught and rendered
inside a successful result envelope (HTTP 200, single text content item),
never as a JSON-RPC error object; for `jedox_read_cell` and
`jedox_write_cell` the text has the form `"Error: <message>"`, while
`jedox_list_databases`, `jedox_list_cubes`, `jedox_list_dimensions` and
`jedox_read_range` swallow the failure into an empty listing text. -/
theorem c8_gateway_errors_in_band (msg : String) (args : JedoxArgs) :
    jedox_handle_mcp (gwFail msg) "tools/call" (some "jedox_list_databases") args =
      ⟨200, .ok (.content [⟨"text", "Available Jedox Databases:\n"⟩])⟩ ∧
    jedox_handle_mcp (gwFail msg) "tools/call" (some "jedox_list_cubes") args =
      ⟨200, .ok (.content [⟨"text",
          "Cubes in database \x27" ++ optNameStr args.database ++ "\x27:\n"⟩])⟩ ∧
    jedox_handle_mcp (gwFail msg) "tools/call" (some "jedox_list_dimensions") args =
      ⟨200, .ok (.content [⟨"text",
          "Dimensions in database \x27" ++ optNameStr args.database ++ "\x27:\n"⟩])⟩ ∧
    jedox_handle_mcp (gwFail msg) "tools/call" (some "jedox_read_cell") args =
      ⟨200, .ok (.content [⟨"text", "Error: " ++ msg⟩])⟩ ∧
    jedox_handle_mcp (gwFail msg) "tools/call" (some "jedox_write_cell") args =
      ⟨200, .ok (.content [⟨"text", "Error: " ++ msg⟩])⟩ ∧
    jedox_handle_mcp (gwFail msg) "tools/call" (some "jedox_read_range") args =
      ⟨200, .ok (.content [⟨"text", "Read 0 cells:\n"⟩])⟩ := by
  refine ⟨rfl, ?_, ?_, rfl, rfl, ?_⟩
  · have hstep :
        jedox_handle_mcp (gwFail msg) "tools/call" (some "jedox_list_cubes") args =
          ⟨200, .ok (.content [⟨"text",
            ("Cubes in database \x27" ++ optNameStr args.database ++ "\x27:\n") ++ ""⟩])⟩ := rfl
    rw [hstep, String.append_empty]
  · have hstep :
        jedox_handle_mcp (gwFail msg) "tools/call" (some "jedox_list_dimensions") args =
          ⟨200, .ok (.content [⟨"text",
            ("Dimensions in database \x27" ++ optNameStr args.database ++ "\x27:\n") ++ ""⟩])⟩ := rfl
    rw [hstep, String.append_empty]
  · have hcells : read_jedox_range (gwFail msg) = [] := rfl
    have hstep :
        jedox_handle_mcp (gwFail msg) "tools/call" (some "jedox_read_range") args =
          ⟨200, .ok (.content [⟨"text",
            "Read " ++ toString (read_jedox_range (gwFail msg)).length ++ " cells:
" ++
              String.join ((read_jedox_range (gwFail msg)).map
                (fun c => "- " ++ pyListStr c.1 ++ ": " ++ c.2 ++ "
"))⟩])⟩ := rfl
    rw [hstep, hcells]
    rfl

/-- C9 (counterexample). The calculator server maps the protocol-level
unknown-method error envelope to HTTP status 400, not 200 as the claim
requires for both servers. -/
theorem c9_counterexample :
    (calc_handle_mcp true "t" [] "tools/ping" none ⟨none, none, none⟩).1 =
      ⟨400, .err (-32601) "Method not found: tools/ping"⟩ ∧
    (400 : Nat) ≠ 200 :=
  ⟨rfl, by decide⟩

set_option maxHeartbeats 1000000 in
/-- C9 (amended). The Jedox server's `/mcp` responds with HTTP status 200
for every envelope, protocol-level errors included; the calculator
server's `/mcp`, by contrast, returns status 200 exactly for success
envelopes — every error envelope it builds, including the protocol-level
unknown-tool and unknown-method ones, is mapped to 400 (and its
top-level parse-failure handler, outside this structured model, to
500). -/
theorem c9_status_mapping (storageOk : Bool) (now : String)
    (ledger : List LedgerEntry) (method : String) (toolName : Option String)
    (args : CalcArgs) (gw : JedoxGateway) (jmethod : String)
    (jtool : Option String) (jargs : JedoxArgs) :
    ((calc_handle_mcp storageOk now ledger method toolName args).1.status = 200 ↔
      ∃ r, (calc_handle_mcp storageOk now ledger method toolName args).1.body =
        McpBody.ok r) ∧
    (jedox_handle_mcp gw jmethod jtool jargs).status = 200 := by
  constructor
  · unfold calc_handle_mcp
    repeat' split
    all_goals simp
  · unfold jedox_handle_mcp
    repeat' split
    all_goals rfl
